import Mathlib

/-!
# Verification of the task-management web client

Shallow embedding of the client's auth/session layer, HTTP response
interceptor, form validation, and tasks view, translated from the
repository's JavaScript sources:

* `AuthContext` (the session store) — `src/unnamed/part_000`
* axios instance and interceptors — the `utils/api` module bundled in
  `src/react_frontend/src/pages/Login.js` (lines 164-287)
* `Login` / `Signup` form validation and submission —
  `src/react_frontend/src/pages/Login.js`, `src/react_frontend/src/pages/Dashboard.js`
* `Tasks` view (fetch, delete, effects) — `src/react_frontend/src/components/Tasks.js`

Conventions of the embedding:

* Browser `localStorage` holds exactly the two keys the app ever writes,
  `token` and `user`; it is modelled as a record of two `Option`s.
  `JSON.stringify`/`JSON.parse` of the user record round-trip, so the
  serialized `user` entry is modelled as the record itself (a serialized
  record is a non-empty string, hence always truthy in JS).
* JavaScript string truthiness (`!!s`, `if (s)`, `s || fallback`): a string
  is truthy iff non-empty; `null`/`undefined` are falsy. An `Option String`
  captures string-or-absent values.
* Network effects are modelled by the list of requests a handler issues, in
  order; the outcome of each request (resolve/reject) is a parameter.
-/

namespace TaskApp

/-- JS truthiness of a string-or-absent value: `undefined`/`null` and the
empty string are falsy, every other string is truthy. -/
def jsTruthy : Option String → Bool
  | none => false
  | some s => !s.isEmpty

/-- JS `a || fallback` where `a` is a string or absent: the fallback is used
when `a` is absent or empty (falsy). -/
def jsOr (a : Option String) (fallback : String) : String :=
  match a with
  | none => fallback
  | some s => if s.isEmpty then fallback else s

/-- JS `!s.trim()`: a string trims to the empty string iff every character
is whitespace. Embedded directly as the all-whitespace test, since that is
the only use the sources make of `trim`. -/
def isBlank (s : String) : Bool :=
  s.data.all Char.isWhitespace

/-- User record `{ id, name, email }` (spec §3). -/
structure User where
  id : String
  name : String
  email : String
deriving DecidableEq, Repr

/-- Durable local storage, restricted to the two keys the client writes:
`localStorage.getItem/setItem/removeItem` on `'token'` and `'user'`.
`user = some u` stands for the key holding `JSON.stringify u`. -/
structure Storage where
  token : Option String
  user : Option User
deriving DecidableEq, Repr

/-- In-memory React state of `AuthProvider` together with the durable
storage it mirrors (`src/unnamed/part_000`): `useState` cells `token` and
`user`, plus `localStorage`. -/
structure Session where
  memToken : Option String
  memUser : Option User
  store : Storage
deriving DecidableEq, Repr

/-- `AuthProvider`'s mount effect: read both keys; `if (storedToken &&
storedUser)` — both truthy — set both state cells, else set neither.
Storage itself is not modified by initialization. A stored user entry is a
JSON serialization, hence non-empty and truthy whenever present. -/
def initSession (st : Storage) : Session :=
  if jsTruthy st.token && st.user.isSome then
    { memToken := st.token, memUser := st.user, store := st }
  else
    { memToken := none, memUser := none, store := st }

/-- `login(token, userData)`: `setToken`, `setUser`,
`localStorage.setItem('token', token)`, `localStorage.setItem('user',
JSON.stringify(userData))`. -/
def login (tok : String) (u : User) (_s : Session) : Session :=
  { memToken := some tok, memUser := some u,
    store := { token := some tok, user := some u } }

/-- `logout()`: `setToken(null)`, `setUser(null)`, remove both keys. -/
def logout (_s : Session) : Session :=
  { memToken := none, memUser := none, store := { token := none, user := none } }

/-- `updateUser(userData)`: `setUser(userData)` and
`localStorage.setItem('user', JSON.stringify(userData))`; the token — in
memory and in storage — is not touched. -/
def updateUser (u : User) (s : Session) : Session :=
  { memToken := s.memToken, memUser := some u,
    store := { token := s.store.token, user := some u } }

/-- `isAuthenticated: !!token` — truthiness of the in-memory token. -/
def isAuthenticated (s : Session) : Bool :=
  jsTruthy s.memToken

/-- The no-partial-session invariant (spec §3): token and user both present
or both absent, in memory and in durable storage. -/
def bothOrNeither (s : Session) : Prop :=
  (s.memToken.isSome ↔ s.memUser.isSome) ∧
    (s.store.token.isSome ↔ s.store.user.isSome)

instance (s : Session) : Decidable (bothOrNeither s) := by
  unfold bothOrNeither; infer_instance

/-! ## HTTP client wrapper (`utils/api`, bundled in `Login.js`) -/

/-- The `response` attached to an axios error: HTTP status and the optional
`data.message` field of the body. Absent entirely for network errors. -/
structure ErrResponse where
  status : Nat
  message : Option String
deriving DecidableEq, Repr

/-- An axios request failure: `error.response` is present for HTTP-status
failures and absent for network failures. `error.response?.data?.message`
is modelled by `response.bind message`. -/
structure HttpError where
  response : Option ErrResponse
deriving DecidableEq, Repr

/-- `error.response && error.response.status === 401`. -/
def is401 (e : HttpError) : Bool :=
  match e.response with
  | some r => r.status == 401
  | none => false

/-- Observable outcome of the response-error interceptor: the durable
storage afterwards, whether `window.location.href = '/login'` was
executed, and the error the returned promise rejects with. -/
structure InterceptOutcome where
  store : Storage
  navigatedToLogin : Bool
  rejected : HttpError
deriving DecidableEq, Repr

/-- The rejection branch of `api.interceptors.response.use`
(`Login.js` bundle, lines 192-203): on a 401 response remove both storage
keys and navigate to `/login`; in every case `return Promise.reject(error)`
with the original error. -/
def responseErrorInterceptor (e : HttpError) (st : Storage) : InterceptOutcome :=
  if is401 e then
    { store := { token := none, user := none }, navigatedToLogin := true, rejected := e }
  else
    { store := st, navigatedToLogin := false, rejected := e }

/-! ## Form validation (`Login.js`, `Dashboard.js` `Signup`)

The email check is `/\S+@\S+\.\S+/.test(email)`: an unanchored search for
one-or-more non-whitespace characters, `@`, one-or-more non-whitespace,
`.`, one-or-more non-whitespace. It is embedded as a direct backtracking
matcher over the character list: `matchSPlusThen p` consumes one or more
non-whitespace characters and then tries the continuation `p` after each,
exactly as the regex engine does for `\S+`. JS string `.length` counts
UTF-16 code units; `String.length` counts characters, which agree on the
Basic Multilingual Plane inputs at issue here. -/

/-- `\S+` followed by continuation `p`: at least one non-whitespace
character, then `p` after any number of further non-whitespace ones. -/
def matchSPlusThen (p : List Char → Bool) : List Char → Bool
  | [] => false
  | c :: rest => !c.isWhitespace && (p rest || matchSPlusThen p rest)

/-- A single literal character followed by continuation `p`. -/
def matchCharThen (c : Char) (p : List Char → Bool) : List Char → Bool
  | [] => false
  | d :: rest => d == c && p rest

/-- The whole pattern `\S+@\S+\.\S+` anchored at the start of the list. -/
def emailPatternAt : List Char → Bool :=
  matchSPlusThen (matchCharThen '@' (matchSPlusThen
    (matchCharThen '.' (matchSPlusThen fun _ => true))))

/-- Unanchored search: the pattern matches at some suffix. -/
def emailSearch : List Char → Bool
  | [] => false
  | c :: rest => emailPatternAt (c :: rest) || emailSearch rest

/-- `/\S+@\S+\.\S+/.test(email)`. -/
def emailTest (s : String) : Bool :=
  emailSearch s.data

/-- Login form state: `{ email, password }`. -/
structure LoginForm where
  email : String
  password : String
deriving DecidableEq, Repr

/-- Login field errors, one optional message per field (absent = no entry
in the `newErrors` object). -/
structure LoginErrors where
  email : Option String
  password : Option String
deriving DecidableEq, Repr

/-- `Login.validate` (`Login.js` lines 40-57): builds `newErrors` in one
pass over all fields, never returning early. -/
def loginValidate (fd : LoginForm) : LoginErrors :=
  { email :=
      if isBlank fd.email then some "Email is required"
      else if !emailTest fd.email then some "Email is invalid"
      else none,
    password :=
      if fd.password.isEmpty then some "Password is required"
      else if fd.password.length < 6 then some "Password must be at least 6 characters"
      else none }

/-- `Object.keys(newErrors).length === 0`: keys are only ever added with a
message, so the object is empty iff no field has an error. -/
def loginValid (fd : LoginForm) : Bool :=
  (loginValidate fd).email.isNone && (loginValidate fd).password.isNone

/-- Signup form state: `{ name, email, password, confirmPassword }`. -/
structure SignupForm where
  name : String
  email : String
  password : String
  confirmPassword : String
deriving DecidableEq, Repr

/-- Signup field errors. -/
structure SignupErrors where
  name : Option String
  email : Option String
  password : Option String
  confirmPassword : Option String
deriving DecidableEq, Repr

/-- `Signup.validate` (`Dashboard.js` bundle, lines 164-191). -/
def signupValidate (fd : SignupForm) : SignupErrors :=
  { name :=
      if isBlank fd.name then some "Name is required" else none,
    email :=
      if isBlank fd.email then some "Email is required"
      else if !emailTest fd.email then some "Email is invalid"
      else none,
    password :=
      if fd.password.isEmpty then some "Password is required"
      else if fd.password.length < 6 then some "Password must be at least 6 characters"
      else none,
    confirmPassword :=
      if fd.confirmPassword.isEmpty then some "Please confirm your password"
      else if fd.password ≠ fd.confirmPassword then some "Passwords do not match"
      else none }

/-- `Object.keys(newErrors).length === 0` for the signup form. -/
def signupValid (fd : SignupForm) : Bool :=
  (signupValidate fd).name.isNone && (signupValidate fd).email.isNone &&
    (signupValidate fd).password.isNone && (signupValidate fd).confirmPassword.isNone

/-- Body of `POST /auth/signup`: `const { confirmPassword, ...signupData } =
formData` keeps exactly the remaining three fields. The type itself has no
`confirmPassword` field. -/
structure SignupBody where
  name : String
  email : String
  password : String
deriving DecidableEq, Repr

/-- Query parameters of `GET /tasks` as built by `fetchTasks`. -/
structure QueryParams where
  search : Option String
  status : Option String
deriving DecidableEq, Repr

/-- A network request issued through the API layer, identified by endpoint
and payload. -/
inductive Req where
  | loginReq (email password : String)
  | signupReq (body : SignupBody)
  | listTasks (params : QueryParams)
  | deleteTask (id : String)
deriving DecidableEq, Repr

/-- `Login.handleSubmit` (`Login.js` lines 64-87), projected onto the
requests it issues: `if (!validate()) return;` then one
`authAPI.login(formData)`. -/
def loginSubmitReqs (fd : LoginForm) : List Req :=
  if loginValid fd then [Req.loginReq fd.email fd.password] else []

/-- `Signup.handleSubmit` (`Dashboard.js` bundle, lines 198-222), projected
onto the requests it issues: `if (!validate()) return;` then
`const { confirmPassword, ...signupData } = formData` and one
`authAPI.signup(signupData)`. -/
def signupSubmitReqs (fd : SignupForm) : List Req :=
  if signupValid fd then
    [Req.signupReq { name := fd.name, email := fd.email, password := fd.password }]
  else []

/-! ## Tasks view (`Tasks.js`) -/

/-- Task record as the view renders it. -/
structure Task where
  id : String
  title : String
  description : String
  status : String
deriving DecidableEq, Repr

/-- The view's `message` state: `{ type, text }`. -/
structure Msg where
  type : String
  text : String
deriving DecidableEq, Repr

/-- The `Tasks` component state relevant to fetching and deletion. -/
structure TasksView where
  tasks : List Task
  loading : Bool
  message : Msg
  searchText : String
  statusFilter : String
deriving DecidableEq, Repr

/-- `fetchTasks`'s params object (`Tasks.js` lines 30-32): a key is added
only when the current value is truthy, i.e. a non-empty string. -/
def fetchParams (searchText statusFilter : String) : QueryParams :=
  { search := if searchText.isEmpty then none else some searchText,
    status := if statusFilter.isEmpty then none else some statusFilter }

/-- Shape of the resolved body of `GET /tasks`, covering the shapes
`setTasks(response.data.tasks || response.data || [])` distinguishes:
an object with a `tasks` array, a bare array, or a null body. -/
inductive ListPayload where
  | withTasksField (ts : List Task)
  | bareArray (ts : List Task)
  | nullData
deriving DecidableEq, Repr

/-- `response.data.tasks || response.data || []`: in JS an array — even an
empty one — is truthy, so a present `tasks` field always wins; a null body
falls through to `[]`. -/
def extractTasks : ListPayload → List Task
  | .withTasksField ts => ts
  | .bareArray ts => ts
  | .nullData => []

/-- Outcome of one `tasksAPI.getAll` roundtrip: resolution with a body, or
rejection carrying `error.response?.data?.message` (absent when any link
of the optional chain is missing). -/
inductive FetchOutcome where
  | success (payload : ListPayload)
  | failure (serverMsg : Option String)
deriving DecidableEq, Repr

/-- `fetchTasks` (`Tasks.js` lines 27-44) as a state transformer given the
roundtrip's outcome, paired with the single request it issues.
`setLoading(true)`; on resolution `setTasks(...)`; on rejection
`setMessage` with the server message or the fallback; `finally
setLoading(false)`. The `catch` branch does not touch `tasks`. -/
def fetchTasksRun (o : FetchOutcome) (v : TasksView) : TasksView × List Req :=
  let req := Req.listTasks (fetchParams v.searchText v.statusFilter)
  match o with
  | .success p =>
      ({ v with tasks := extractTasks p, loading := false }, [req])
  | .failure m =>
      ({ v with
          message := { type := "error", text := jsOr m "Failed to fetch tasks" }
          loading := false }, [req])

/-- Outcome of one `tasksAPI.delete` roundtrip. -/
inductive DeleteOutcome where
  | ok
  | fail (serverMsg : Option String)
deriving DecidableEq, Repr

/-- `handleDelete` (`Tasks.js` lines 157-175) given the user's answer to
`window.confirm` and the two roundtrip outcomes. Declined: return before
any request, state untouched. Confirmed: one `tasksAPI.delete(id)`; only
after it resolves, a success message and one `fetchTasks()`; on rejection
an error message and no re-fetch; `finally setLoading(false)`. (The
unawaited `fetchTasks()` races its own `loading` updates with the outer
`finally`; the flag's transient interleaving is not modelled, only the
requests and the data/message state.) -/
def handleDelete (id : String) (confirmed : Bool) (d : DeleteOutcome)
    (fo : FetchOutcome) (v : TasksView) : TasksView × List Req :=
  if !confirmed then (v, [])
  else
    match d with
    | .ok =>
        let v1 := { v with message := { type := "success", text := "Task deleted successfully!" } }
        let (v2, fetchReqs) := fetchTasksRun fo v1
        ({ v2 with loading := false }, Req.deleteTask id :: fetchReqs)
    | .fail m =>
        ({ v with
            message := { type := "error", text := jsOr m "Failed to delete task" }
            loading := false }, [Req.deleteTask id])

/-- The fetch-triggering effect (`Tasks.js` lines 27-49): `fetchTasks` is
wrapped in `useCallback` with dependency array `[searchText, statusFilter]`,
so React recreates it exactly when one of those values differs from the
previous render; the `useEffect` whose sole dependency is `fetchTasks`
then runs once, issuing one list fetch. This function gives the number of
fetches the effect issues on a re-render, per React's documented
dependency-comparison semantics. -/
def fetchesTriggered (prevSearch prevStatus curSearch curStatus : String) : Nat :=
  if prevSearch = curSearch ∧ prevStatus = curStatus then 0 else 1


/-! ## Offending-field conditions, read off the validators' branch guards -/

/-- The email field is empty or malformed: blank (`!email.trim()`) or
failing the `/\S+@\S+\.\S+/` test. -/
def emailOffending (s : String) : Prop :=
  isBlank s = true ∨ emailTest s = false

/-- The password field is empty or shorter than 6 characters. -/
def passwordOffending (s : String) : Prop :=
  s = "" ∨ s.length < 6

/-! ## Helper lemmas -/

lemma loginValidate_email_isSome (fd : LoginForm) (h : emailOffending fd.email) :
    (loginValidate fd).email.isSome = true := by
  unfold loginValidate
  rcases h with h | h
  · simp [h]
  · by_cases hb : isBlank fd.email <;> simp [hb, h]

lemma loginValidate_password_isSome (fd : LoginForm) (h : passwordOffending fd.password) :
    (loginValidate fd).password.isSome = true := by
  unfold loginValidate
  rcases h with h | h
  · simp [h, String.isEmpty_iff]
  · by_cases hb : fd.password.isEmpty <;> simp [hb, h]

lemma signupValidate_name_isSome (gd : SignupForm) (h : isBlank gd.name = true) :
    (signupValidate gd).name.isSome = true := by
  unfold signupValidate; simp [h]

lemma signupValidate_email_isSome (gd : SignupForm) (h : emailOffending gd.email) :
    (signupValidate gd).email.isSome = true := by
  unfold signupValidate
  rcases h with h | h
  · simp [h]
  · by_cases hb : isBlank gd.email <;> simp [hb, h]

lemma signupValidate_password_isSome (gd : SignupForm) (h : passwordOffending gd.password) :
    (signupValidate gd).password.isSome = true := by
  unfold signupValidate
  rcases h with h | h
  · simp [h, String.isEmpty_iff]
  · by_cases hb : gd.password.isEmpty <;> simp [hb, h]

lemma signupValidate_confirm_isSome_of_empty (gd : SignupForm)
    (h : gd.confirmPassword = "") :
    (signupValidate gd).confirmPassword.isSome = true := by
  unfold signupValidate; simp [h, String.isEmpty_iff]

lemma signupValidate_confirm_isSome_of_ne (gd : SignupForm)
    (h : gd.password ≠ gd.confirmPassword) :
    (signupValidate gd).confirmPassword.isSome = true := by
  unfold signupValidate
  by_cases hb : gd.confirmPassword.isEmpty <;> simp [hb, h]

lemma loginSubmitReqs_eq_nil_of_email (fd : LoginForm)
    (h : (loginValidate fd).email.isSome = true) : loginSubmitReqs fd = [] := by
  unfold loginSubmitReqs loginValid
  simp [Option.isNone_iff_eq_none]
  intro he
  simp [he] at h

lemma loginSubmitReqs_eq_nil_of_password (fd : LoginForm)
    (h : (loginValidate fd).password.isSome = true) : loginSubmitReqs fd = [] := by
  unfold loginSubmitReqs loginValid
  simp [Option.isNone_iff_eq_none]
  intro _ hp
  simp [hp] at h

lemma signupSubmitReqs_eq_nil (gd : SignupForm) (h : signupValid gd = false) :
    signupSubmitReqs gd = [] := by
  unfold signupSubmitReqs; simp [h]

lemma signupValid_eq_false_of_some (gd : SignupForm)
    (h : (signupValidate gd).name.isSome = true ∨ (signupValidate gd).email.isSome = true ∨
      (signupValidate gd).password.isSome = true ∨
      (signupValidate gd).confirmPassword.isSome = true) :
    signupValid gd = false := by
  unfold signupValid
  rcases h with h | h | h | h <;> simp [Option.isSome_iff_exists] at h <;>
    obtain ⟨x, hx⟩ := h <;> simp [hx]


/-- C1: a response failure with status 401 makes the interceptor remove
both the `token` and `user` entries from durable storage, force navigation
to the login view, and reject with the original error; any other failure
(other statuses, or a network error with no response) is propagated
unchanged with storage untouched and no navigation. -/
theorem interceptor_401_teardown_else_transparent (e : HttpError) (st : Storage) :
    (is401 e = true →
      responseErrorInterceptor e st =
        { store := { token := none, user := none }, navigatedToLogin := true, rejected := e }) ∧
    (is401 e = false →
      responseErrorInterceptor e st =
        { store := st, navigatedToLogin := false, rejected := e }) := by
  unfold responseErrorInterceptor
  constructor <;> intro h <;> simp [h]

/-- Witness for `interceptor_401_teardown_else_transparent`: a 401 with a
populated session, and a 500 and a network error left untouched. -/
theorem interceptor_401_teardown_witness :
    responseErrorInterceptor ⟨some ⟨401, none⟩⟩ ⟨some "tok", some ⟨"1", "Ada", "ada@ex.com"⟩⟩ =
      ⟨⟨none, none⟩, true, ⟨some ⟨401, none⟩⟩⟩ ∧
    responseErrorInterceptor ⟨some ⟨500, some "boom"⟩⟩ ⟨some "tok", none⟩ =
      ⟨⟨some "tok", none⟩, false, ⟨some ⟨500, some "boom"⟩⟩⟩ ∧
    responseErrorInterceptor ⟨none⟩ ⟨some "tok", none⟩ =
      ⟨⟨some "tok", none⟩, false, ⟨none⟩⟩ :=
  ⟨(interceptor_401_teardown_else_transparent _ _).1 (by decide),
   (interceptor_401_teardown_else_transparent _ _).2 (by decide),
   (interceptor_401_teardown_else_transparent _ _).2 (by decide)⟩

/-- C2 counterexample: `updateUser` invoked on a logged-out session (fresh
initialization from empty storage) yields a partial session — a user
record without a token, in memory and in durable storage — so the
invariant does not hold in every state reachable through the store's
public operations. -/
theorem updateUser_on_logged_out_breaks_invariant :
    ¬ bothOrNeither (updateUser ⟨"1", "Ada", "ada@ex.com"⟩ (initSession ⟨none, none⟩)) := by
  decide

/-- C2 amended: `login` and `logout` always (re)establish the invariant,
initialization preserves it whenever durable storage itself satisfies it,
and `updateUser` preserves it provided the session holds a token (in
memory and in storage) — the one unguarded case, `updateUser` on a
token-less session, is the counterexample above. -/
theorem session_operations_preserve_invariant (s : Session) (st : Storage)
    (tok : String) (u : User)
    (hst : st.token.isSome ↔ st.user.isSome)
    (hmem : s.memToken.isSome = true) (hsto : s.store.token.isSome = true) :
    bothOrNeither (login tok u s) ∧ bothOrNeither (logout s) ∧
    bothOrNeither (initSession st) ∧ bothOrNeither (updateUser u s) := by
  refine ⟨⟨by simp [login], by simp [login]⟩, ⟨by simp [logout], by simp [logout]⟩, ?_, ?_⟩
  · unfold initSession bothOrNeither
    split <;> simp_all
  · unfold updateUser bothOrNeither
    simp [hmem, hsto]

/-- Witness for `session_operations_preserve_invariant` at a logged-in
session and a storage holding a full session. -/
theorem session_operations_preserve_invariant_witness :
    bothOrNeither (login "t2" ⟨"2", "Bo", "bo@ex.com"⟩
      (login "t1" ⟨"1", "Ada", "ada@ex.com"⟩ (initSession ⟨none, none⟩))) ∧
    bothOrNeither (logout (login "t1" ⟨"1", "Ada", "ada@ex.com"⟩ (initSession ⟨none, none⟩))) ∧
    bothOrNeither (initSession ⟨some "t1", some ⟨"1", "Ada", "ada@ex.com"⟩⟩) ∧
    bothOrNeither (updateUser ⟨"2", "Bo", "bo@ex.com"⟩
      (login "t1" ⟨"1", "Ada", "ada@ex.com"⟩ (initSession ⟨none, none⟩))) :=
  session_operations_preserve_invariant
    (login "t1" ⟨"1", "Ada", "ada@ex.com"⟩ (initSession ⟨none, none⟩))
    ⟨some "t1", some ⟨"1", "Ada", "ada@ex.com"⟩⟩ "t2" ⟨"2", "Bo", "bo@ex.com"⟩
    (by decide) (by decide) (by decide)

/-- C4 counterexample: `login` with the empty-string token stores both
fields, yet `isAuthenticated` — JS `!!token` — is `false`, because the
empty string is falsy. -/
theorem login_empty_token_not_authenticated :
    isAuthenticated (login "" ⟨"1", "Ada", "ada@ex.com"⟩ (initSession ⟨none, none⟩)) = false ∧
    (login "" ⟨"1", "Ada", "ada@ex.com"⟩ (initSession ⟨none, none⟩)).store.token = some "" := by
  decide

/-- C4 amended: for every non-empty token, after `login(token, user)` the
session is authenticated and durable storage holds both the token and the
user record; after `logout()`, from any session state, `isAuthenticated`
is false and both keys are absent from durable storage. -/
theorem login_then_authenticated_logout_then_not (tok : String) (u : User)
    (s : Session) (h : tok ≠ "") :
    isAuthenticated (login tok u s) = true ∧
    (login tok u s).store.token = some tok ∧
    (login tok u s).store.user = some u ∧
    isAuthenticated (logout s) = false ∧
    (logout s).store.token = none ∧
    (logout s).store.user = none := by
  refine ⟨?_, rfl, rfl, rfl, rfl, rfl⟩
  cases hb : tok.isEmpty
  · simp [isAuthenticated, login, jsTruthy, hb]
  · exact absurd ((String.isEmpty_iff tok).mp hb) h

/-- Witness for `login_then_authenticated_logout_then_not`. -/
theorem login_then_authenticated_witness :
    isAuthenticated (login "tok" ⟨"1", "Ada", "ada@ex.com"⟩ (initSession ⟨none, none⟩)) = true ∧
    (login "tok" ⟨"1", "Ada", "ada@ex.com"⟩ (initSession ⟨none, none⟩)).store.token = some "tok" ∧
    (login "tok" ⟨"1", "Ada", "ada@ex.com"⟩ (initSession ⟨none, none⟩)).store.user =
      some ⟨"1", "Ada", "ada@ex.com"⟩ ∧
    isAuthenticated (logout (initSession ⟨none, none⟩)) = false ∧
    (logout (initSession ⟨none, none⟩)).store.token = none ∧
    (logout (initSession ⟨none, none⟩)).store.user = none :=
  login_then_authenticated_logout_then_not "tok" ⟨"1", "Ada", "ada@ex.com"⟩
    (initSession ⟨none, none⟩) (by decide)


/-- C3 counterexample: the fetch issued with an empty search text carries
no `search` query parameter at all (and likewise for an empty status
filter), contradicting "every task-list fetch includes the current search
text and the current status filter as query parameters". -/
theorem fetch_with_empty_search_omits_param :
    (fetchTasksRun (.success .nullData)
        { tasks := [], loading := false, message := ⟨"", ""⟩,
          searchText := "", statusFilter := "pending" }).2 =
      [Req.listTasks { search := none, status := some "pending" }] := by
  decide

/-- C3 amended: every task-list fetch issues exactly one request whose
query parameters are built from the current search text and status filter,
each included exactly when non-empty (an empty value is omitted); a
re-render with either value changed triggers exactly one new fetch, and
one with both unchanged triggers none. -/
theorem fetch_params_track_state_and_changes_trigger_one_fetch
    (v : TasksView) (o : FetchOutcome) (ps pf s f : String) :
    (fetchTasksRun o v).2 = [Req.listTasks (fetchParams v.searchText v.statusFilter)] ∧
    (v.searchText ≠ "" → (fetchParams v.searchText v.statusFilter).search = some v.searchText) ∧
    (v.searchText = "" → (fetchParams v.searchText v.statusFilter).search = none) ∧
    (v.statusFilter ≠ "" → (fetchParams v.searchText v.statusFilter).status = some v.statusFilter) ∧
    (v.statusFilter = "" → (fetchParams v.searchText v.statusFilter).status = none) ∧
    (ps ≠ s ∨ pf ≠ f → fetchesTriggered ps pf s f = 1) ∧
    fetchesTriggered s f s f = 0 := by
  refine ⟨?_, ?_, ?_, ?_, ?_, ?_, by simp [fetchesTriggered]⟩
  · unfold fetchTasksRun; cases o <;> rfl
  · intro h; simp [fetchParams, String.isEmpty_iff, h]
  · intro h; simp [fetchParams, String.isEmpty_iff, h]
  · intro h; simp [fetchParams, String.isEmpty_iff, h]
  · intro h; simp [fetchParams, String.isEmpty_iff, h]
  · intro h
    unfold fetchesTriggered
    rcases h with h | h <;> simp [h]

/-- Witness for `fetch_params_track_state_and_changes_trigger_one_fetch`:
a fetch with non-empty search and empty filter, after a search-text
change. -/
theorem fetch_params_track_state_witness :
    (fetchTasksRun (.success .nullData)
        { tasks := [], loading := false, message := ⟨"", ""⟩,
          searchText := "milk", statusFilter := "" }).2 =
      [Req.listTasks (fetchParams "milk" "")] ∧
    (fetchParams "milk" "").search = some "milk" ∧
    (fetchParams "milk" "").status = none ∧
    fetchesTriggered "" "" "milk" "" = 1 :=
  have h := fetch_params_track_state_and_changes_trigger_one_fetch
    { tasks := [], loading := false, message := ⟨"", ""⟩,
      searchText := "milk", statusFilter := "" } (.success .nullData) "" "" "milk" ""
  ⟨h.1, h.2.1 (by decide), h.2.2.2.2.1 rfl, h.2.2.2.2.2.1 (Or.inl (by decide))⟩

/-- C5: for every login and signup submission with some required field
empty or malformed, no network request is issued and the validator — which
examines every field in one pass rather than stopping at the first
failure — has set an error on each offending field. -/
theorem invalid_forms_block_submission_with_all_errors
    (fd : LoginForm) (gd : SignupForm)
    (hf : emailOffending fd.email ∨ passwordOffending fd.password)
    (hg : isBlank gd.name = true ∨ emailOffending gd.email ∨
      passwordOffending gd.password ∨ gd.confirmPassword = "") :
    loginSubmitReqs fd = [] ∧ signupSubmitReqs gd = [] ∧
    (emailOffending fd.email → (loginValidate fd).email.isSome = true) ∧
    (passwordOffending fd.password → (loginValidate fd).password.isSome = true) ∧
    (isBlank gd.name = true → (signupValidate gd).name.isSome = true) ∧
    (emailOffending gd.email → (signupValidate gd).email.isSome = true) ∧
    (passwordOffending gd.password → (signupValidate gd).password.isSome = true) ∧
    (gd.confirmPassword = "" → (signupValidate gd).confirmPassword.isSome = true) := by
  refine ⟨?_, ?_,
    loginValidate_email_isSome fd, loginValidate_password_isSome fd,
    signupValidate_name_isSome gd, signupValidate_email_isSome gd,
    signupValidate_password_isSome gd, signupValidate_confirm_isSome_of_empty gd⟩
  · rcases hf with h | h
    · exact loginSubmitReqs_eq_nil_of_email fd (loginValidate_email_isSome fd h)
    · exact loginSubmitReqs_eq_nil_of_password fd (loginValidate_password_isSome fd h)
  · refine signupSubmitReqs_eq_nil gd (signupValid_eq_false_of_some gd ?_)
    rcases hg with h | h | h | h
    · exact Or.inl (signupValidate_name_isSome gd h)
    · exact Or.inr (Or.inl (signupValidate_email_isSome gd h))
    · exact Or.inr (Or.inr (Or.inl (signupValidate_password_isSome gd h)))
    · exact Or.inr (Or.inr (Or.inr (signupValidate_confirm_isSome_of_empty gd h)))

/-- Witness for `invalid_forms_block_submission_with_all_errors`: a login
form with malformed email and short password, a signup form with blank
name and empty confirmation — all four errors are set and neither
submission issues a request. -/
theorem invalid_forms_block_submission_witness :
    loginSubmitReqs ⟨"not-an-email", "abc"⟩ = [] ∧
    signupSubmitReqs ⟨" ", "a@b.co", "secret1", ""⟩ = [] ∧
    (loginValidate ⟨"not-an-email", "abc"⟩).email.isSome = true ∧
    (loginValidate ⟨"not-an-email", "abc"⟩).password.isSome = true ∧
    (signupValidate ⟨" ", "a@b.co", "secret1", ""⟩).name.isSome = true ∧
    (signupValidate ⟨" ", "a@b.co", "secret1", ""⟩).confirmPassword.isSome = true :=
  have h := invalid_forms_block_submission_with_all_errors
    ⟨"not-an-email", "abc"⟩ ⟨" ", "a@b.co", "secret1", ""⟩
    (Or.inl (Or.inr (by decide))) (Or.inl (by decide))
  ⟨h.1, h.2.1, h.2.2.1 (Or.inr (by decide)), h.2.2.2.1 (Or.inr (by decide)),
   h.2.2.2.2.1 (by decide), h.2.2.2.2.2.2.2 rfl⟩

/-- C6 counterexample: a confirmed deletion whose delete request is
rejected issues the delete request but no task-list re-fetch afterwards,
contradicting "if the user confirms, exactly one delete request ... is
issued, followed after its completion by exactly one task-list
re-fetch". -/
theorem confirmed_delete_failure_issues_no_refetch :
    (handleDelete "42" true (.fail none) (.success .nullData)
        { tasks := [⟨"42", "t", "d", "pending"⟩], loading := false,
          message := ⟨"", ""⟩, searchText := "", statusFilter := "" }).2 =
      [Req.deleteTask "42"] := by
  decide

/-- C6 amended: a declined deletion issues zero requests and leaves the
view state unchanged; a confirmed deletion issues exactly one delete
request for that id and, when the delete succeeds, exactly one task-list
re-fetch after its completion; when the delete fails, no re-fetch is
issued. -/
theorem delete_confirmation_gates_requests (id : String) (v : TasksView)
    (d : DeleteOutcome) (fo : FetchOutcome) (m : Option String) :
    handleDelete id false d fo v = (v, []) ∧
    (handleDelete id true .ok fo v).2 =
      [Req.deleteTask id, Req.listTasks (fetchParams v.searchText v.statusFilter)] ∧
    (handleDelete id true (.fail m) fo v).2 = [Req.deleteTask id] := by
  refine ⟨rfl, ?_, rfl⟩
  unfold handleDelete fetchTasksRun
  cases fo <;> rfl


/-- C7: whenever the password and confirmation fields differ — including a
non-empty password with an empty confirmation — the validator sets an
error on the confirmation field and the signup submission issues no
request. -/
theorem password_mismatch_blocks_signup (gd : SignupForm)
    (h : gd.password ≠ gd.confirmPassword) :
    (signupValidate gd).confirmPassword.isSome = true ∧ signupSubmitReqs gd = [] := by
  have hc : (signupValidate gd).confirmPassword.isSome = true := by
    by_cases he : gd.confirmPassword = ""
    · exact signupValidate_confirm_isSome_of_empty gd he
    · exact signupValidate_confirm_isSome_of_ne gd h
  exact ⟨hc, signupSubmitReqs_eq_nil gd (signupValid_eq_false_of_some gd
    (Or.inr (Or.inr (Or.inr hc))))⟩

/-- Witness for `password_mismatch_blocks_signup`: non-empty password,
empty confirmation. -/
theorem password_mismatch_blocks_signup_witness :
    (signupValidate ⟨"Ada", "ada@ex.com", "secret1", ""⟩).confirmPassword.isSome = true ∧
    signupSubmitReqs ⟨"Ada", "ada@ex.com", "secret1", ""⟩ = [] :=
  password_mismatch_blocks_signup ⟨"Ada", "ada@ex.com", "secret1", ""⟩ (by decide)

/-- C8: every signup submission that passes validation sends exactly one
request whose body holds the form's `name`, `email` and `password`
unchanged; the body type `SignupBody` has no `confirmPassword` field, so
the confirmation value is never part of the dispatched payload. -/
theorem signup_body_drops_confirmation (gd : SignupForm) (h : signupValid gd = true) :
    signupSubmitReqs gd =
      [Req.signupReq { name := gd.name, email := gd.email, password := gd.password }] := by
  unfold signupSubmitReqs
  simp [h]

/-- Witness for `signup_body_drops_confirmation`. -/
theorem signup_body_drops_confirmation_witness :
    signupSubmitReqs ⟨"Ada", "ada@ex.com", "secret1", "secret1"⟩ =
      [Req.signupReq { name := "Ada", email := "ada@ex.com", password := "secret1" }] :=
  signup_body_drops_confirmation ⟨"Ada", "ada@ex.com", "secret1", "secret1"⟩ (by decide)

/-- C9: submitting signup with password `"abc12"` and matching
confirmation — the name non-blank and the email passing the shape test —
sets the password error to exactly "`Password must be at least 6
characters`" and issues no request. -/
theorem short_password_example_blocks_signup (n e : String)
    (_hn : isBlank n = false) (_he : emailTest e = true) :
    (signupValidate ⟨n, e, "abc12", "abc12"⟩).password =
      some "Password must be at least 6 characters" ∧
    signupSubmitReqs ⟨n, e, "abc12", "abc12"⟩ = [] := by
  have hp : (signupValidate ⟨n, e, "abc12", "abc12"⟩).password =
      some "Password must be at least 6 characters" := by
    unfold signupValidate
    dsimp only
    decide
  refine ⟨hp, signupSubmitReqs_eq_nil _ (signupValid_eq_false_of_some _
    (Or.inr (Or.inr (Or.inl (by simp [hp])))))⟩

/-- Witness for `short_password_example_blocks_signup`. -/
theorem short_password_example_witness :
    (signupValidate ⟨"Ada", "ada@ex.com", "abc12", "abc12"⟩).password =
      some "Password must be at least 6 characters" ∧
    signupSubmitReqs ⟨"Ada", "ada@ex.com", "abc12", "abc12"⟩ = [] :=
  short_password_example_blocks_signup "Ada" "ada@ex.com" (by decide) (by decide)

/-- C10 counterexample: a failed fetch whose rejection carries a present
but empty server message sets the view message to the fallback text, not
to the (present) server-provided message — JS `||` falls through on the
empty string — contradicting "set to the server-provided message when
present". -/
theorem fetch_failure_empty_server_message_uses_fallback :
    (fetchTasksRun (.failure (some ""))
        { tasks := [⟨"1", "t", "d", "pending"⟩], loading := true,
          message := ⟨"", ""⟩, searchText := "", statusFilter := "" }).1.message =
      ⟨"error", "Failed to fetch tasks"⟩ := by
  decide

/-- C10 amended: when a task-list fetch fails, the held tasks list is
retained unchanged, the view's message is set to an error whose text is
the server-provided message when present and non-empty and the fallback
"`Failed to fetch tasks`" otherwise, and the loading flag is cleared on
the failure path as well as on the success path. -/
theorem fetch_failure_retains_tasks_and_clears_loading
    (v : TasksView) (m : Option String) (p : ListPayload) :
    (fetchTasksRun (.failure m) v).1.tasks = v.tasks ∧
    (fetchTasksRun (.failure m) v).1.message.type = "error" ∧
    (∀ s : String, m = some s → s ≠ "" →
      (fetchTasksRun (.failure m) v).1.message.text = s) ∧
    (m = none ∨ m = some "" →
      (fetchTasksRun (.failure m) v).1.message.text = "Failed to fetch tasks") ∧
    (fetchTasksRun (.failure m) v).1.loading = false ∧
    (fetchTasksRun (.success p) v).1.loading = false := by
  refine ⟨rfl, rfl, ?_, ?_, rfl, rfl⟩
  · intro s hs hne
    subst hs
    simp [fetchTasksRun, jsOr, String.isEmpty_iff, hne]
  · intro h
    rcases h with h | h <;> subst h
    · simp [fetchTasksRun, jsOr]
    · simp [fetchTasksRun, jsOr, String.isEmpty_iff]

/-- Witness for `fetch_failure_retains_tasks_and_clears_loading`: a failure
carrying the server message "`nope`". -/
theorem fetch_failure_retains_tasks_witness :
    (fetchTasksRun (.failure (some "nope"))
        { tasks := [⟨"1", "t", "d", "pending"⟩], loading := true,
          message := ⟨"", ""⟩, searchText := "", statusFilter := "" }).1.tasks =
      [⟨"1", "t", "d", "pending"⟩] ∧
    (fetchTasksRun (.failure (some "nope"))
        { tasks := [⟨"1", "t", "d", "pending"⟩], loading := true,
          message := ⟨"", ""⟩, searchText := "", statusFilter := "" }).1.message.text = "nope" ∧
    (fetchTasksRun (.failure (some "nope"))
        { tasks := [⟨"1", "t", "d", "pending"⟩], loading := true,
          message := ⟨"", ""⟩, searchText := "", statusFilter := "" }).1.loading = false :=
  have h := fetch_failure_retains_tasks_and_clears_loading
    { tasks := [⟨"1", "t", "d", "pending"⟩], loading := true,
      message := ⟨"", ""⟩, searchText := "", statusFilter := "" } (some "nope") .nullData
  ⟨h.1, h.2.2.1 "nope" rfl (by decide), h.2.2.2.2.1⟩

end TaskApp
